import Mathlib

/-!
Verification of v4l2_bridge.c: a shallow embedding of the bridge's core
(device setup, buffer export, the relay loop with pacing, and the worker
lifecycle), with theorems settling the specification's claims.

Kernel-side behaviour (ioctl results, poll results, clock readings) is
modelled by explicit parameters; all machine integers are Nat/Int with the
32-bit wrap written as an explicit modulus where the source stores values
in unsigned int fields.
-/

namespace V4L2Bridge

/-- Modulus of the C unsigned int fields (32 bits). -/
def U32_MOD : Nat := 4294967296

/-! Constants from linux/videodev2.h used by the source. -/

def V4L2_CAP_VIDEO_CAPTURE : Nat := 1

def V4L2_CAP_VIDEO_OUTPUT : Nat := 2

def V4L2_BUF_TYPE_VIDEO_CAPTURE : Nat := 1

def V4L2_BUF_TYPE_VIDEO_OUTPUT : Nat := 2

def V4L2_MEMORY_MMAP : Nat := 1

def V4L2_MEMORY_DMABUF : Nat := 4

/-- struct device (v4l2_bridge.c lines 45-54). -/
structure Device where
  devname : String
  fd : Int
  type : Nat
  buf_type : Nat
  mem_type : Nat
  exportFlag : Bool
deriving DecidableEq

/-- struct v4l2_pix_format, the fields the bridge reads and writes. -/
structure PixFormat where
  width : Nat
  height : Nat
  pixelformat : Nat
deriving DecidableEq

/-- struct config (lines 57-63): the per-stream shared configuration. -/
structure Config where
  fourcc : Nat
  format : PixFormat
  num_buffers : Nat
  fps : Int
  frame_us : Nat
deriving DecidableEq

/-- struct buffer (lines 66-69). -/
structure Buffer where
  index : Nat
  dbuf_fd : Int
deriving DecidableEq

/-- struct v4l2_exportbuffer, the fields the source touches. -/
structure ExportBuffer where
  type : Nat
  index : Nat
  fd : Int
deriving DecidableEq

/-! Device setup slices of device_init. -/

/-- Capability and type assignment slice of device_init (lines 226-229):
d->type stores the capability constant that was checked; d->buf_type is
the buffer type derived from it; d->mem_type depends on the export flag. -/
def device_init_types (d : Device) (ty : Nat) : Device :=
  { d with
    type := ty,
    buf_type :=
      if ty = V4L2_CAP_VIDEO_CAPTURE then V4L2_BUF_TYPE_VIDEO_CAPTURE
      else V4L2_BUF_TYPE_VIDEO_OUTPUT,
    mem_type := if d.exportFlag then V4L2_MEMORY_MMAP else V4L2_MEMORY_DMABUF }

/-- The buffer-type field placed in the VIDIOC_DQBUF request
(line 162: vb.type = d->type). -/
def dequeue_request_type (d : Device) : Nat := d.type

/-- The buffer-type field placed in the VIDIOC_QBUF request
(line 145: vb.type = d->buf_type). -/
def queue_request_type (d : Device) : Nat := d.buf_type

/-- The buffer-type argument of VIDIOC_STREAMON (line 201: d->buf_type). -/
def streamon_request_type (d : Device) : Nat := d.buf_type

/-- The buffer-type argument of VIDIOC_STREAMOFF (line 192: d->buf_type). -/
def streamoff_request_type (d : Device) : Nat := d.buf_type

/-- Setup and runtime error taxonomy relevant to the claims. -/
inductive InitError where
  | bufferAllocationShortfall (requested granted : Nat)
deriving DecidableEq

/-- VIDIOC_REQBUFS slice of device_init (lines 253-262): rqbufs.count is set
to the configured num_buffers and the ioctl writes back the granted count
(modelled by the kernel function `grant`); the following ASSERT fails the
setup, printing both the granted and the requested count, whenever the
granted count is below the request. -/
def device_request_buffers (grant : Nat → Nat) (num_buffers : Nat) : Except InitError Nat :=
  let count := grant num_buffers
  if count < num_buffers then
    Except.error (InitError.bufferAllocationShortfall num_buffers count)
  else
    Except.ok count

/-! Format negotiation. -/

/-- Format slice of device_init (lines 231-251 and 264): the desired pixel
format is the shared config's format with its pixelformat field overwritten
by the configured fourcc (lines 241-242); VIDIOC_S_FMT followed by the
re-query VIDIOC_G_FMT yields the actual format the queue settled on
(modelled by the kernel coercion `sFmt`), which is stored back into the
shared config (line 264). Returns the updated config and the actual format. -/
def device_init_format (sFmt : PixFormat → PixFormat) (c : Config) : Config × PixFormat :=
  let desired : PixFormat := { c.format with pixelformat := c.fourcc }
  let actual := sFmt desired
  ({ c with format := actual }, actual)

/-- Result of running both devices' format negotiation. -/
structure NegotiationResult where
  config : Config
  actualIn : PixFormat
  actualOut : PixFormat
deriving DecidableEq

/-- The two device_init calls of stream_init (lines 443-444), format slice:
the input device negotiates against the shared config first, then the
output device negotiates against the config the input device stored. -/
def stream_init_formats (sIn sOut : PixFormat → PixFormat) (c : Config) : NegotiationResult :=
  let rIn := device_init_format sIn c
  let rOut := device_init_format sOut rIn.1
  { config := rOut.1, actualIn := rIn.2, actualOut := rOut.2 }

/-- A coercing output queue used to exhibit geometry divergence. -/
def coerceHalveWidth (f : PixFormat) : PixFormat := { f with width := f.width / 2 }

/-- A concrete stream config (640x480, four buffers). -/
def cfgDemo : Config :=
  { fourcc := 1448695129,
    format := { width := 640, height := 480, pixelformat := 0 },
    num_buffers := 4, fps := 30, frame_us := 0 }

/-! Buffer preparation and export. -/

/-- Embedding of device_prepare_buffer (lines 171-186). The v4l2_exportbuffer
request is zero-initialized by memset and the source then assigns only
eb.type = d->buf_type before the VIDIOC_EXPBUF ioctl; in particular eb.index
stays 0 and is never set from b->index. The ioctl returns the dmabuf fd of
the buffer whose index is eb.index (modelled by the kernel function `kern`),
and that fd is stored into b->dbuf_fd. Non-exporting devices do nothing. -/
def device_prepare_buffer (kern : Nat → Int) (d : Device) (b : Buffer) : Buffer :=
  if d.exportFlag then
    let eb : ExportBuffer := { type := d.buf_type, index := 0, fd := 0 }
    let fd := kern eb.index
    { b with dbuf_fd := fd }
  else b

/-- The buffer-preparation loop of stream_init (lines 446-452): the pool is
calloc-zeroed, buffers[i].index = i, and device_prepare_buffer runs on the
input device and then the output device for each index. `kernIn` and
`kernOut` give each device's dmabuf fd for a requested buffer index. -/
def stream_init_buffers (kernIn kernOut : Nat → Int) (din dout : Device) (n : Nat) : List Buffer :=
  (List.range n).map fun i =>
    device_prepare_buffer kernOut dout (device_prepare_buffer kernIn din { index := i, dbuf_fd := 0 })

/-- Kernel export handles for the demonstration: buffer i exports fd 7 + i. -/
def kernDemo (i : Nat) : Int := 7 + i

/-- The exporting input device of the demonstration stream. -/
def devInDemo : Device :=
  { devname := "vin", fd := 3, type := 1, buf_type := 1, mem_type := 1, exportFlag := true }

/-- The importing output device of the demonstration stream. -/
def devOutDemo : Device :=
  { devname := "vout", fd := 4, type := 2, buf_type := 2, mem_type := 4, exportFlag := false }

/-! Frame pacing. -/

/-- frame_us computation of stream_init (lines 459-462). config.frame_us is
an unsigned int: for fps > 0 it stores (10000000 / fps) / 10, and otherwise
the source stores -1, which converts to 2^32 - 1. -/
def computeFrameUs (fps : Int) : Nat :=
  if 0 < fps then (10000000 / fps.toNat) / 10 else U32_MOD - 1

/-- The pacing block of an input-ready iteration of stream_on (lines
407-418), in the source's 32-bit unsigned arithmetic. `prev` is the stored
32-bit timestamp of the previous hand-off, `currTrue` the current
gettimeofday reading in microseconds. When frame_us > 0 the source computes
delay = curr - prev (unsigned wrap) and calls usleep(frame_us - delay) when
delay < frame_us, then re-reads the clock into prev. Returns the requested
usleep duration (0 when usleep is not called) and the new stored prev,
idealizing usleep as sleeping exactly the requested time. -/
def pacingStep (frame_us prev currTrue : Nat) : Nat × Nat :=
  if 0 < frame_us then
    if (currTrue % U32_MOD + (U32_MOD - prev % U32_MOD)) % U32_MOD < frame_us then
      (frame_us - (currTrue % U32_MOD + (U32_MOD - prev % U32_MOD)) % U32_MOD,
       (currTrue + (frame_us - (currTrue % U32_MOD + (U32_MOD - prev % U32_MOD)) % U32_MOD)) % U32_MOD)
    else
      (0, currTrue % U32_MOD)
  else
    (0, prev)

/-! Runtime queue and dequeue outcomes. -/

/-- Outcome of a run-phase ioctl wrapper: either success, or the whole
process aborts after an ERROR log line (the ASSERT macro, lines 88-98,
prints ERROR(file:line) with a formatted message and calls abort()). -/
inductive IoOutcome where
  | ok
  | abortWithLog (msg : String)
deriving DecidableEq

/-- Embedding of device_queue_buffer (lines 139-152): a nonzero VIDIOC_QBUF
return makes ASSERT log the failure, naming the buffer index, and abort the
whole process. -/
def device_queue_buffer_run (ret : Int) (index : Nat) : IoOutcome :=
  if ret ≠ 0 then
    IoOutcome.abortWithLog ("VIDIOC_QBUF(index = " ++ toString index ++ ") failed")
  else IoOutcome.ok

/-- Embedding of device_dequeue_buffer (lines 155-168): a nonzero
VIDIOC_DQBUF return makes ASSERT log the failure and abort the process. -/
def device_dequeue_buffer_run (ret : Int) : IoOutcome :=
  if ret ≠ 0 then IoOutcome.abortWithLog ("VIDIOC_DQBUF failed") else IoOutcome.ok

/-- The relay-loop guard (line 405): the body runs only while poll's return
value is strictly positive; a timeout (0) or an error (negative) leaves the
loop. -/
def relayLoopContinues (pollRes : Int) : Bool := decide (0 < pollRes)

/-! Worker lifecycle: stream_on with the pthread cleanup contract. -/

/-- The two devices of a stream. -/
inductive DeviceId where
  | input
  | output
deriving DecidableEq

/-- Observable events of a stream worker. -/
inductive Event where
  | devOn (d : DeviceId)
  | devOff (d : DeviceId)
  | qbuf (d : DeviceId) (i : Nat)
  | dqbuf (d : DeviceId) (i : Nat)
  | abortEv
deriving DecidableEq

/-- Trace of stream_off (lines 373-380): device_off on the input device and
then on the output device. -/
def stream_off_trace : List Event := [Event.devOff DeviceId.input, Event.devOff DeviceId.output]

/-- Worker state: the pthread cleanup-handler stack (each handler given by
the events it emits) and the event trace so far. -/
structure WorkerState where
  cleanupStack : List (List Event)
  trace : List Event
deriving DecidableEq

/-- pthread_cleanup_push: registers a cleanup handler. -/
def cleanup_push (handler : List Event) (st : WorkerState) : WorkerState :=
  { st with cleanupStack := handler :: st.cleanupStack }

/-- pthread_cleanup_pop(execute): pops the most recent handler, running it
exactly when the execute argument is nonzero. stream_on (line 431) passes
the stream pointer s, which is non-null, so on the normal exit path the
handler runs. -/
def cleanup_pop (execute : Bool) (st : WorkerState) : WorkerState :=
  match st.cleanupStack with
  | [] => st
  | handler :: rest =>
      { cleanupStack := rest, trace := st.trace ++ (if execute then handler else []) }

/-- pthread cancellation delivered at a cancellation point (poll or usleep):
the thread unwinds, running every pushed cleanup handler, most recent
first. -/
def cancel_unwind (st : WorkerState) : WorkerState :=
  { cleanupStack := [], trace := st.trace ++ st.cleanupStack.foldr (fun h acc => h ++ acc) [] }

/-- abort(), as called by a failed ASSERT: the whole process terminates at
once and pthread cleanup handlers do not run. -/
def abort_process (st : WorkerState) : WorkerState :=
  { st with trace := st.trace ++ [Event.abortEv] }

/-- Appends events to the worker trace. -/
def emit (events : List Event) (st : WorkerState) : WorkerState :=
  { st with trace := st.trace ++ events }

/-- One iteration of the relay loop (lines 405-428): which sides poll
reported ready and which buffer index each dequeue returned. -/
structure Iteration where
  pollin : Bool
  pollout : Bool
  inIdx : Nat
  outIdx : Nat

/-- Events of one relay-loop iteration body (lines 407-427): on POLLIN,
dequeue from the input device and queue to the output device; on POLLOUT,
dequeue from the output device and queue back to the input device. -/
def iterationEvents (it : Iteration) : List Event :=
  (if it.pollin then [Event.dqbuf DeviceId.input it.inIdx, Event.qbuf DeviceId.output it.inIdx]
   else []) ++
  (if it.pollout then [Event.dqbuf DeviceId.output it.outIdx, Event.qbuf DeviceId.input it.outIdx]
   else [])

/-- Events of a sequence of relay-loop iterations. -/
def loopTrace : List Iteration → List Event
  | [] => []
  | it :: rest => iterationEvents it ++ loopTrace rest

/-- How the relay loop of stream_on ends: poll returned 0 or negative
(timeout or poll error), the thread was cancelled at a suspension point, or
a run-phase ASSERT fired and called abort(). -/
inductive ExitPath where
  | pollDone
  | cancelled
  | runtimeAbort
deriving DecidableEq

/-- Trace semantics of stream_on (lines 383-434): push the stream_off
cleanup handler, turn both devices on, run the loop iterations, then end by
the given exit path. Normal loop exit reaches pthread_cleanup_pop(s) with
the non-null stream pointer as execute flag; cancellation unwinds the
handler stack; a runtime ASSERT aborts the process without any cleanup. -/
def stream_on_run (its : List Iteration) (exit : ExitPath) : WorkerState :=
  let st0 : WorkerState := { cleanupStack := [], trace := [] }
  let st1 := cleanup_push stream_off_trace st0
  let st2 := emit [Event.devOn DeviceId.input, Event.devOn DeviceId.output] st1
  let st3 := emit (loopTrace its) st2
  match exit with
  | ExitPath.pollDone => cleanup_pop true st3
  | ExitPath.cancelled => cancel_unwind st3
  | ExitPath.runtimeAbort => abort_process st3

/-- Number of stop calls a device receives in a trace. -/
def countStops (d : DeviceId) : List Event → Nat
  | [] => 0
  | e :: rest => (if e = Event.devOff d then 1 else 0) + countStops d rest

/-! Relay-loop buffer accounting. -/

/-- Where the stream's buffers live at runtime: the input device's queue,
the output device's queue, and the in-transit window between a dequeue and
the immediately following enqueue. -/
structure RelayState where
  inQ : Multiset Nat
  outQ : Multiset Nat
  transit : Multiset Nat
deriving DecidableEq

/-- The primed state after stream_init (lines 454-457): every buffer index
queued on the input device. -/
def primedState (n : Nat) : RelayState :=
  { inQ := Multiset.range n, outQ := 0, transit := 0 }

/-- Atomic buffer movements of the relay loop (lines 405-428): a dequeue
takes a device-chosen buffer out of that device's queue into the in-transit
window, and the immediately following enqueue moves it onto the peer's
queue. No step creates or destroys a buffer. -/
inductive RelayStep : RelayState → RelayState → Prop where
  | dequeueIn (s : RelayState) (i : Nat) (h : i ∈ s.inQ) :
      RelayStep s ⟨s.inQ.erase i, s.outQ, i ::ₘ s.transit⟩
  | queueOut (s : RelayState) (i : Nat) (h : i ∈ s.transit) :
      RelayStep s ⟨s.inQ, i ::ₘ s.outQ, s.transit.erase i⟩
  | dequeueOut (s : RelayState) (i : Nat) (h : i ∈ s.outQ) :
      RelayStep s ⟨s.inQ, s.outQ.erase i, i ::ₘ s.transit⟩
  | queueIn (s : RelayState) (i : Nat) (h : i ∈ s.transit) :
      RelayStep s ⟨i ::ₘ s.inQ, s.outQ, s.transit.erase i⟩

/-- Buffer conservation: the three places together hold exactly the indices
0 .. n-1, with multiplicities. -/
def conserved (n : Nat) (s : RelayState) : Prop :=
  s.inQ + s.outQ + s.transit = Multiset.range n

/-! Helper lemmas. -/

theorem countStops_append (d : DeviceId) (a b : List Event) :
    countStops d (a ++ b) = countStops d a + countStops d b := by
  induction a with
  | nil => simp [countStops]
  | cons e rest ih => simp [countStops, ih, Nat.add_assoc]

theorem countStops_iteration (d : DeviceId) (it : Iteration) :
    countStops d (iterationEvents it) = 0 := by
  cases hin : it.pollin <;> cases hout : it.pollout <;>
    simp [iterationEvents, hin, hout, countStops, countStops_append]

theorem countStops_loopTrace (d : DeviceId) (its : List Iteration) :
    countStops d (loopTrace its) = 0 := by
  induction its with
  | nil => simp [loopTrace, countStops]
  | cons it rest ih => simp [loopTrace, countStops_append, countStops_iteration, ih]

theorem countStops_stream_off_trace (d : DeviceId) :
    countStops d stream_off_trace = 1 := by
  cases d <;> decide

/-- On both non-abort exit paths, the worker's trace carries exactly one
stop call for each device: the single pushed stream_off handler runs once,
on pop (normal exit, with the non-null execute flag) or on unwind
(cancellation), and the loop body emits no stop calls. -/
theorem stream_on_run_stops (its : List Iteration) (exit : ExitPath) (d : DeviceId)
    (h : exit ≠ ExitPath.runtimeAbort) :
    countStops d (stream_on_run its exit).trace = 1 := by
  cases exit with
  | runtimeAbort => exact absurd rfl h
  | pollDone =>
      cases d <;>
        simp [stream_on_run, cleanup_push, emit, cleanup_pop, countStops_append,
              countStops_loopTrace, stream_off_trace, countStops]
  | cancelled =>
      cases d <;>
        simp [stream_on_run, cleanup_push, emit, cancel_unwind, countStops_append,
              countStops_loopTrace, stream_off_trace, countStops]

theorem erase_add_cons_left (A C : Multiset Nat) (i : Nat) (h : i ∈ A) :
    A.erase i + (i ::ₘ C) = A + C := by
  rw [Multiset.add_cons, ← Multiset.cons_add, Multiset.cons_erase h]

/-- Every atomic relay step preserves buffer conservation. -/
theorem relayStep_conserved {n : Nat} {s t : RelayState}
    (hstep : RelayStep s t) (hc : conserved n s) : conserved n t := by
  have hc2 : s.inQ + s.outQ + s.transit = Multiset.range n := hc
  cases hstep with
  | dequeueIn i hmem =>
      show s.inQ.erase i + s.outQ + (i ::ₘ s.transit) = Multiset.range n
      rw [add_right_comm, erase_add_cons_left _ _ _ hmem, add_right_comm]
      exact hc2
  | queueOut i hmem =>
      show s.inQ + (i ::ₘ s.outQ) + s.transit.erase i = Multiset.range n
      rw [add_right_comm, add_assoc, erase_add_cons_left _ _ _ hmem,
          add_comm s.transit s.outQ, ← add_assoc]
      exact hc2
  | dequeueOut i hmem =>
      show s.inQ + s.outQ.erase i + (i ::ₘ s.transit) = Multiset.range n
      rw [add_assoc, erase_add_cons_left _ _ _ hmem, ← add_assoc]
      exact hc2
  | queueIn i hmem =>
      show (i ::ₘ s.inQ) + s.outQ + s.transit.erase i = Multiset.range n
      rw [add_right_comm, add_comm (i ::ₘ s.inQ) (s.transit.erase i),
          erase_add_cons_left _ _ _ hmem, add_comm s.transit s.inQ, add_right_comm]
      exact hc2

theorem primed_conserved (n : Nat) : conserved n (primedState n) := by
  show Multiset.range n + 0 + 0 = Multiset.range n
  simp

theorem reachable_conserved {n : Nat} {s : RelayState}
    (h : Relation.ReflTransGen RelayStep (primedState n) s) : conserved n s := by
  induction h with
  | refl => exact primed_conserved n
  | tail _ hbc ih => exact relayStep_conserved hbc ih

theorem conserved_count {n : Nat} {s : RelayState} (hc : conserved n s)
    {i : Nat} (hi : i < n) :
    s.inQ.count i + s.outQ.count i + s.transit.count i = 1 := by
  have h1 := congrArg (Multiset.count i) hc
  have h2 : (Multiset.range n).count i = 1 :=
    Multiset.count_eq_one_of_mem (Multiset.nodup_range n) (Multiset.mem_range.mpr hi)
  rw [Multiset.count_add, Multiset.count_add, h2] at h1
  exact h1

theorem conserved_card {n : Nat} {s : RelayState} (hc : conserved n s) :
    Multiset.card s.inQ + Multiset.card s.outQ + Multiset.card s.transit = n := by
  have h1 := congrArg Multiset.card hc
  rw [Multiset.card_add, Multiset.card_add, Multiset.card_range] at h1
  exact h1

/-- The input-ready loop body (dequeue from input, enqueue to output) is two
atomic steps and moves exactly the dequeued buffer from the input queue to
the output queue. -/
theorem inputReady_steps {s : RelayState} {i : Nat} (hi : i ∈ s.inQ) :
    Relation.ReflTransGen RelayStep s ⟨s.inQ.erase i, i ::ₘ s.outQ, s.transit⟩ := by
  have h1 : RelayStep s ⟨s.inQ.erase i, s.outQ, i ::ₘ s.transit⟩ :=
    RelayStep.dequeueIn s i hi
  have h2 : RelayStep ⟨s.inQ.erase i, s.outQ, i ::ₘ s.transit⟩
      ⟨s.inQ.erase i, i ::ₘ s.outQ, (i ::ₘ s.transit).erase i⟩ :=
    RelayStep.queueOut _ i (Multiset.mem_cons_self i _)
  rw [Multiset.erase_cons_head] at h2
  exact Relation.ReflTransGen.tail (Relation.ReflTransGen.single h1) h2

/-- The output-ready loop body (dequeue from output, re-enqueue to input)
is two atomic steps and moves exactly the dequeued buffer back to the input
queue. -/
theorem outputReady_steps {s : RelayState} {i : Nat} (hi : i ∈ s.outQ) :
    Relation.ReflTransGen RelayStep s ⟨i ::ₘ s.inQ, s.outQ.erase i, s.transit⟩ := by
  have h1 : RelayStep s ⟨s.inQ, s.outQ.erase i, i ::ₘ s.transit⟩ :=
    RelayStep.dequeueOut s i hi
  have h2 : RelayStep ⟨s.inQ, s.outQ.erase i, i ::ₘ s.transit⟩
      ⟨i ::ₘ s.inQ, s.outQ.erase i, (i ::ₘ s.transit).erase i⟩ :=
    RelayStep.queueIn _ i (Multiset.mem_cons_self i _)
  rw [Multiset.erase_cons_head] at h2
  exact Relation.ReflTransGen.tail (Relation.ReflTransGen.single h1) h2

/-- Unsigned 32-bit subtraction curr - prev recovers the true elapsed time
when it fits in 32 bits. -/
theorem u32_delay_eq (b a : Nat) (hle : b ≤ a) (hwrap : a - b < U32_MOD) :
    (a % U32_MOD + (U32_MOD - (b % U32_MOD) % U32_MOD)) % U32_MOD = a - b := by
  simp only [U32_MOD] at hwrap ⊢
  omega

/-! Claim theorems. -/

/-- C1: the claim states that with target_fps <= 0 (free-run mode) the relay
never inserts a pacing delay. The code violates this: frame_us is an
unsigned int, stream_init stores -1 into it for fps <= 0, so it holds
2^32 - 1, the frame_us > 0 pacing guard passes, and an input-ready
iteration with stored prev = 0 and a clock reading of 1000000 microseconds
requests usleep(4293967295) - an enormous delay in free-run mode. -/
theorem c1_freerun_inserts_delay :
    computeFrameUs (-1) = 4294967295 ∧
    (pacingStep (computeFrameUs (-1)) 0 1000000).1 = 4293967295 ∧
    0 < (pacingStep (computeFrameUs (-1)) 0 1000000).1 := by
  refine ⟨by decide, by decide, by decide⟩

/-- C2 counterexample: on the runtime-error exit path a failed ASSERT calls
abort(), which terminates the process without running the pthread cleanup
handler, so neither device receives its stop call - the claim's "every way
the relay worker exits" is false for runtime errors. -/
theorem c2_counterexample :
    countStops DeviceId.input (stream_on_run [] ExitPath.runtimeAbort).trace = 0 ∧
    countStops DeviceId.output (stream_on_run [] ExitPath.runtimeAbort).trace = 0 := by
  decide

/-- C2 (amended): for every sequence of loop iterations and every exit path
other than the runtime-error abort - normal loop exit after a poll timeout
or poll error, or cancellation at a suspension point - each of the two
devices receives exactly one stop call before the worker terminates. -/
theorem c2_stop_exactly_once (its : List Iteration) (exit : ExitPath)
    (h : exit ≠ ExitPath.runtimeAbort) :
    countStops DeviceId.input (stream_on_run its exit).trace = 1 ∧
    countStops DeviceId.output (stream_on_run its exit).trace = 1 :=
  ⟨stream_on_run_stops its exit DeviceId.input h,
   stream_on_run_stops its exit DeviceId.output h⟩

/-- C2 witness: a cancelled worker with an empty loop history stops both
devices exactly once. -/
theorem c2_stop_exactly_once_witness :
    countStops DeviceId.input (stream_on_run [] ExitPath.cancelled).trace = 1 ∧
    countStops DeviceId.output (stream_on_run [] ExitPath.cancelled).trace = 1 :=
  c2_stop_exactly_once [] ExitPath.cancelled (by decide)

/-- C3: the claim states that the handle exported for index i is stored at
pool entry i. The code violates this: device_prepare_buffer never sets
eb.index from b->index, so every VIDIOC_EXPBUF call exports buffer 0. With
two buffers and kernel handles 7 + i, both pool entries store fd 7 (the
handle of index 0), while the handle for index 1 is 8. -/
theorem c3_export_index_never_assigned :
    (stream_init_buffers kernDemo kernDemo devInDemo devOutDemo 2).map Buffer.dbuf_fd = [7, 7] ∧
    kernDemo 0 = 7 ∧ kernDemo 1 = 8 := by
  refine ⟨by decide, by decide, by decide⟩

/-- C4: after priming (all n buffers on the input queue), in every state
reachable by relay-loop steps each buffer index 0 <= i < n resides in
exactly one of the input queue, the output queue and the in-transit window
(its three multiplicities sum to 1), the total buffer count is exactly n,
and the loop bodies are realizable as steps that move exactly one buffer:
input-ready moves a buffer from input to output, output-ready moves one
from output back to input; no step creates or destroys a buffer. -/
theorem c4_buffer_conservation (n : Nat) (s : RelayState)
    (h : Relation.ReflTransGen RelayStep (primedState n) s) :
    (∀ i, i < n → s.inQ.count i + s.outQ.count i + s.transit.count i = 1) ∧
    Multiset.card s.inQ + Multiset.card s.outQ + Multiset.card s.transit = n ∧
    (∀ i ∈ s.inQ, Relation.ReflTransGen RelayStep s ⟨s.inQ.erase i, i ::ₘ s.outQ, s.transit⟩) ∧
    (∀ i ∈ s.outQ, Relation.ReflTransGen RelayStep s ⟨i ::ₘ s.inQ, s.outQ.erase i, s.transit⟩) := by
  have hc := reachable_conserved h
  exact ⟨fun i hi => conserved_count hc hi, conserved_card hc,
         fun i hi => inputReady_steps hi, fun i hi => outputReady_steps hi⟩

/-- C4 witness: the primed two-buffer stream satisfies conservation and can
take an input-ready step moving buffer 0 to the output queue. -/
theorem c4_buffer_conservation_witness :
    (primedState 2).inQ.count 0 + (primedState 2).outQ.count 0 + (primedState 2).transit.count 0 = 1 ∧
    Multiset.card (primedState 2).inQ + Multiset.card (primedState 2).outQ +
      Multiset.card (primedState 2).transit = 2 ∧
    Relation.ReflTransGen RelayStep (primedState 2)
      ⟨(primedState 2).inQ.erase 0, 0 ::ₘ (primedState 2).outQ, (primedState 2).transit⟩ :=
  ⟨(c4_buffer_conservation 2 (primedState 2) Relation.ReflTransGen.refl).1 0 (by decide),
   (c4_buffer_conservation 2 (primedState 2) Relation.ReflTransGen.refl).2.1,
   (c4_buffer_conservation 2 (primedState 2) Relation.ReflTransGen.refl).2.2.1 0 (by decide)⟩

/-- C5 counterexample: a failed VIDIOC_QBUF during the run phase does crash
the whole process through the hard-coded ASSERT abort - the outcome is a
process abort, not a stream-local teardown, refuting the claim at the
concrete ioctl return -1 on buffer index 2. -/
theorem c5_counterexample :
    device_queue_buffer_run (-1) 2 =
      IoOutcome.abortWithLog ("VIDIOC_QBUF(index = " ++ toString 2 ++ ") failed") ∧
    device_queue_buffer_run (-1) 2 ≠ IoOutcome.ok ∧
    device_dequeue_buffer_run (-1) = IoOutcome.abortWithLog ("VIDIOC_DQBUF failed") := by
  refine ⟨by decide, by decide, by decide⟩

/-- C5 (amended): every runtime enqueue or dequeue failure (nonzero ioctl
return) is logged with context - the failed ioctl's name, and the buffer
index for enqueue - and then aborts the entire process via the hard-coded
ASSERT; a zero return succeeds. No stream-local teardown occurs. -/
theorem c5_runtime_error_aborts (ret : Int) (index : Nat) :
    (ret ≠ 0 →
      device_queue_buffer_run ret index =
        IoOutcome.abortWithLog ("VIDIOC_QBUF(index = " ++ toString index ++ ") failed") ∧
      device_dequeue_buffer_run ret = IoOutcome.abortWithLog ("VIDIOC_DQBUF failed")) ∧
    (ret = 0 →
      device_queue_buffer_run ret index = IoOutcome.ok ∧
      device_dequeue_buffer_run ret = IoOutcome.ok) := by
  constructor
  · intro h
    constructor <;> simp [device_queue_buffer_run, device_dequeue_buffer_run, h]
  · intro h
    constructor <;> simp [device_queue_buffer_run, device_dequeue_buffer_run, h]

/-- C5 witness: a failed enqueue of buffer 5 aborts with its log message; a
successful ioctl returns ok. -/
theorem c5_runtime_error_aborts_witness :
    (device_queue_buffer_run (-1) 5 =
      IoOutcome.abortWithLog ("VIDIOC_QBUF(index = " ++ toString 5 ++ ") failed") ∧
     device_dequeue_buffer_run (-1) = IoOutcome.abortWithLog ("VIDIOC_DQBUF failed")) ∧
    (device_queue_buffer_run 0 5 = IoOutcome.ok ∧
     device_dequeue_buffer_run 0 = IoOutcome.ok) :=
  ⟨(c5_runtime_error_aborts (-1) 5).1 (by decide),
   (c5_runtime_error_aborts 0 5).2 rfl⟩

/-- C6 counterexample: on a poll timeout (poll returns 0, no readiness on
either side) the relay-loop guard is false, so the relay does not continue
- the stream terminates rather than treating the stall as non-fatal. -/
theorem c6_counterexample : relayLoopContinues 0 = false := by decide

/-- C6 (amended): a readiness-wait result of 0 or below (timeout with no
readiness, or poll error) makes the loop guard false, so the relay loop
exits - the stall is fatal to the stream, not reported-and-continued - and
the stream is then torn down, each device receiving exactly one stop call
through the popped cleanup handler. -/
theorem c6_timeout_exits_loop (res : Int) (h : res ≤ 0) :
    relayLoopContinues res = false ∧
    countStops DeviceId.input (stream_on_run [] ExitPath.pollDone).trace = 1 ∧
    countStops DeviceId.output (stream_on_run [] ExitPath.pollDone).trace = 1 := by
  refine ⟨?_, stream_on_run_stops [] ExitPath.pollDone DeviceId.input (by decide),
    stream_on_run_stops [] ExitPath.pollDone DeviceId.output (by decide)⟩
  simp only [relayLoopContinues, decide_eq_false_iff_not]
  omega

/-- C6 witness: the timeout value 0 exits the loop and both devices are
stopped once. -/
theorem c6_timeout_exits_loop_witness :
    relayLoopContinues 0 = false ∧
    countStops DeviceId.input (stream_on_run [] ExitPath.pollDone).trace = 1 ∧
    countStops DeviceId.output (stream_on_run [] ExitPath.pollDone).trace = 1 :=
  c6_timeout_exits_loop 0 (by decide)

/-- C7: requesting n buffers fails with BufferAllocationShortfall carrying
the requested and granted counts whenever the device grants fewer than n -
a partial allocation is never accepted - and succeeds when the device
grants at least n. -/
theorem c7_allocation_shortfall (grant : Nat → Nat) (n : Nat) :
    (grant n < n →
      device_request_buffers grant n =
        Except.error (InitError.bufferAllocationShortfall n (grant n))) ∧
    (n ≤ grant n → device_request_buffers grant n = Except.ok (grant n)) := by
  constructor
  · intro h
    simp [device_request_buffers, h]
  · intro h
    simp [device_request_buffers, Nat.not_lt.mpr h]

/-- C7 witness: a device granting 3 of 4 requested buffers fails setup with
the shortfall error carrying (requested = 4, granted = 3); a device
granting all 4 succeeds. -/
theorem c7_allocation_shortfall_witness :
    device_request_buffers (fun _ => 3) 4 =
      Except.error (InitError.bufferAllocationShortfall 4 3) ∧
    device_request_buffers (fun _ => 4) 4 = Except.ok 4 :=
  ⟨(c7_allocation_shortfall (fun _ => 3) 4).1 (by decide),
   (c7_allocation_shortfall (fun _ => 4) 4).2 (by decide)⟩

/-- C8 counterexample: when the output device's queue coerces the requested
width (here halving it), the two devices end up with different geometry -
the input device's actual width is 640 while the output device's is 320 -
so the claim that both devices observe the same negotiated geometry after
initialization is false. -/
theorem c8_counterexample :
    (stream_init_formats id coerceHalveWidth cfgDemo).actualIn.width = 640 ∧
    (stream_init_formats id coerceHalveWidth cfgDemo).actualOut.width = 320 := by
  refine ⟨by decide, by decide⟩

/-- C8 (amended): negotiation requests the desired format with the
configured fourcc, re-queries the actual format and stores it back into the
shared config, so after both device_init calls the config holds the output
(second) device's actual format; and provided the output device's queue
grants requested formats unchanged, both devices observe the same width and
height and the output device's pixel format is the configured fourcc. If
the output queue coerces the request, the two geometries can diverge. -/
theorem c8_format_negotiation (sIn sOut : PixFormat → PixFormat) (c : Config)
    (h : ∀ f, sOut f = f) :
    (stream_init_formats sIn sOut c).config.format = (stream_init_formats sIn sOut c).actualOut ∧
    (stream_init_formats sIn sOut c).actualOut.width =
      (stream_init_formats sIn sOut c).actualIn.width ∧
    (stream_init_formats sIn sOut c).actualOut.height =
      (stream_init_formats sIn sOut c).actualIn.height ∧
    (stream_init_formats sIn sOut c).actualOut.pixelformat = c.fourcc := by
  refine ⟨?_, ?_, ?_, ?_⟩ <;> simp [stream_init_formats, device_init_format, h]

/-- C8 witness: with queues that grant requests unchanged, the demo config
negotiates the same geometry on both devices and the config ends holding
the output device's actual format. -/
theorem c8_format_negotiation_witness :
    (stream_init_formats id id cfgDemo).config.format = (stream_init_formats id id cfgDemo).actualOut ∧
    (stream_init_formats id id cfgDemo).actualOut.width =
      (stream_init_formats id id cfgDemo).actualIn.width ∧
    (stream_init_formats id id cfgDemo).actualOut.height =
      (stream_init_formats id id cfgDemo).actualIn.height ∧
    (stream_init_formats id id cfgDemo).actualOut.pixelformat = cfgDemo.fourcc :=
  c8_format_negotiation id id cfgDemo (fun _ => rfl)

/-- C9: bounded pacing for target_fps = F > 0. The stored frame interval is
1000000 / F microseconds (the source computes (10000000 / F) / 10). For an
input-ready iteration whose previous hand-off happened at true time
prevTrue and whose clock reads currTrue (elapsed below the 32-bit wrap),
the hand-off time after the pacing sleep, currTrue + sleep, is at least
frame_us after prevTrue - consecutive hand-offs are spaced at least 1/F
seconds apart (usleep idealized as exact); and when the device is already
slower than 1/F (elapsed at least frame_us) the computed sleep is zero, so
no artificial delay is added. -/
theorem c9_bounded_pacing (F : Int) (hF : 0 < F) (prevTrue currTrue : Nat)
    (hle : prevTrue ≤ currTrue) (hwrap : currTrue - prevTrue < U32_MOD) :
    computeFrameUs F = 1000000 / F.toNat ∧
    computeFrameUs F ≤
      currTrue + (pacingStep (computeFrameUs F) (prevTrue % U32_MOD) currTrue).1 - prevTrue ∧
    (computeFrameUs F ≤ currTrue - prevTrue →
      (pacingStep (computeFrameUs F) (prevTrue % U32_MOD) currTrue).1 = 0) := by
  have hdelay : (currTrue % U32_MOD + (U32_MOD - (prevTrue % U32_MOD) % U32_MOD)) % U32_MOD
      = currTrue - prevTrue := u32_delay_eq prevTrue currTrue hle hwrap
  have hfu : computeFrameUs F = 1000000 / F.toNat := by
    unfold computeFrameUs
    rw [if_pos hF, Nat.div_div_eq_div_mul]
    have h10 : (10000000 : Nat) = 1000000 * 10 := by norm_num
    rw [h10, Nat.mul_div_mul_right]
    norm_num
  refine ⟨hfu, ?_, ?_⟩
  · unfold pacingStep
    rw [hdelay]
    split_ifs with h1 h2 <;> dsimp only <;> omega
  · intro hge
    unfold pacingStep
    rw [hdelay]
    split_ifs with h1 h2 <;> dsimp only <;> omega

/-- C9 witness: at 25 fps the interval is 40000 microseconds; an iteration
arriving 10000 microseconds after the previous hand-off sleeps so that the
hand-off lands exactly 40000 microseconds after it. -/
theorem c9_bounded_pacing_witness :
    computeFrameUs 25 = 1000000 / (25 : Int).toNat ∧
    computeFrameUs 25 ≤
      11000 + (pacingStep (computeFrameUs 25) (1000 % U32_MOD) 11000).1 - 1000 ∧
    (computeFrameUs 25 ≤ 11000 - 1000 →
      (pacingStep (computeFrameUs 25) (1000 % U32_MOD) 11000).1 = 0) :=
  c9_bounded_pacing 25 (by decide) 1000 11000 (by decide) (by decide)

/-- C10: for a device initialized in either role, the buffer-type value the
dequeue request takes from the stored capability constant (field type)
numerically equals the buffer type used by enqueue, stream-on and
stream-off (field buf_type): capture capability 0x1 equals capture buffer
type 1 and output capability 0x2 equals output buffer type 2, so dequeue
addresses the same queue as the other operations. -/
theorem c10_dequeue_type_matches (d : Device) (ty : Nat)
    (h : ty = V4L2_CAP_VIDEO_CAPTURE ∨ ty = V4L2_CAP_VIDEO_OUTPUT) :
    dequeue_request_type (device_init_types d ty) = queue_request_type (device_init_types d ty) ∧
    dequeue_request_type (device_init_types d ty) = streamon_request_type (device_init_types d ty) ∧
    dequeue_request_type (device_init_types d ty) =
      streamoff_request_type (device_init_types d ty) ∧
    V4L2_CAP_VIDEO_CAPTURE = V4L2_BUF_TYPE_VIDEO_CAPTURE ∧
    V4L2_CAP_VIDEO_OUTPUT = V4L2_BUF_TYPE_VIDEO_OUTPUT := by
  rcases h with h | h <;> subst h <;>
    simp [dequeue_request_type, queue_request_type, streamon_request_type,
          streamoff_request_type, device_init_types, V4L2_CAP_VIDEO_CAPTURE,
          V4L2_CAP_VIDEO_OUTPUT, V4L2_BUF_TYPE_VIDEO_CAPTURE, V4L2_BUF_TYPE_VIDEO_OUTPUT]

/-- C10 witness: the demo capture device's dequeue type equals its other
request types. -/
theorem c10_dequeue_type_matches_witness :
    dequeue_request_type (device_init_types devInDemo V4L2_CAP_VIDEO_CAPTURE) =
      queue_request_type (device_init_types devInDemo V4L2_CAP_VIDEO_CAPTURE) ∧
    dequeue_request_type (device_init_types devInDemo V4L2_CAP_VIDEO_CAPTURE) =
      streamon_request_type (device_init_types devInDemo V4L2_CAP_VIDEO_CAPTURE) ∧
    dequeue_request_type (device_init_types devInDemo V4L2_CAP_VIDEO_CAPTURE) =
      streamoff_request_type (device_init_types devInDemo V4L2_CAP_VIDEO_CAPTURE) ∧
    V4L2_CAP_VIDEO_CAPTURE = V4L2_BUF_TYPE_VIDEO_CAPTURE ∧
    V4L2_CAP_VIDEO_OUTPUT = V4L2_BUF_TYPE_VIDEO_OUTPUT :=
  c10_dequeue_type_matches devInDemo V4L2_CAP_VIDEO_CAPTURE (Or.inl rfl)

end V4L2Bridge
